import Mathlib

/-!
Verification of the construction-hub-integrations connector and integration
layer.  Python source files are embedded shallowly: dictionaries become
association lists, `decimal.Decimal` values become exact rationals (`ℚ`),
exceptions become `Except` values, and the effectful transport calls of a
connector (broker client construction, poll, publish, plugin invocation)
become explicit environment oracles.  Each definition mirrors one Python
function of the repository; the theorems at the end of the file settle the
behavioural claims about those functions.
-/

namespace CH

/-! ## Python dictionaries as association lists

A Python `dict` preserves insertion order and assignment replaces the value
of an existing key in place.  We model a dict as a `List (key × value)` with
at most one entry per key, and translate `d[k] = v` as `dictInsert`. -/

abbrev Dict (α : Type) := List (String × α)

def dictGet {α : Type} (d : Dict α) (k : String) : Option α :=
  match d with
  | [] => none
  | (k', v) :: rest => if k' = k then some v else dictGet rest k

def dictHasKey {α : Type} (d : Dict α) (k : String) : Bool :=
  (dictGet d k).isSome

/-- `d[k] = v`: replace in place when the key is present, append otherwise. -/
def dictInsert {α : Type} (d : Dict α) (k : String) (v : α) : Dict α :=
  match d with
  | [] => [(k, v)]
  | (k', v') :: rest =>
      if k' = k then (k', v) :: rest else (k', v') :: dictInsert rest k v

/-- `d.update(kvs)`: assign every pair of `kvs` into `d`, in order. -/
def dictUpdate {α : Type} (d : Dict α) (kvs : Dict α) : Dict α :=
  kvs.foldl (fun acc kv => dictInsert acc kv.1 kv.2) d

def dictKeys {α : Type} (d : Dict α) : List String := d.map Prod.fst

@[simp] theorem dictGet_nil {α : Type} (k : String) :
    dictGet ([] : Dict α) k = none := rfl

@[simp] theorem dictGet_cons {α : Type} (k k' : String) (v : α) (d : Dict α) :
    dictGet ((k', v) :: d) k = if k' = k then some v else dictGet d k := rfl

@[simp] theorem dictInsert_nil {α : Type} (k : String) (v : α) :
    dictInsert ([] : Dict α) k v = [(k, v)] := rfl

theorem dictInsert_of_not_mem {α : Type} (d : Dict α) (k : String) (v : α)
    (h : dictHasKey d k = false) : dictInsert d k v = d ++ [(k, v)] := by
  induction d with
  | nil => rfl
  | cons kv rest ih =>
      obtain ⟨k', v'⟩ := kv
      simp only [dictHasKey, dictGet_cons] at h
      by_cases hk : k' = k
      · simp [hk] at h
      · simp only [dictInsert, if_neg hk, List.cons_append, List.cons.injEq,
          true_and]
        exact ih (by simpa [dictHasKey, hk] using h)

theorem dictHasKey_append {α : Type} (d e : Dict α) (k : String) :
    dictHasKey (d ++ e) k = (dictHasKey d k || dictHasKey e k) := by
  induction d with
  | nil => simp [dictHasKey]
  | cons kv rest ih =>
      obtain ⟨k', v'⟩ := kv
      by_cases hk : k' = k
      · simp [dictHasKey, hk]
      · simpa [dictHasKey, hk] using ih

/-! ## Decimal strings

`decimal.Decimal(s)` for the finite-number fragment of its grammar:
an optional sign, then digits with an optional decimal point (at least one
digit in total).  The fragment Python additionally accepts (exponents,
underscore separators, `NaN`, `Infinity`) is rejected here; every string this
parser accepts is accepted by Python with the same value, and no claim below
quantifies over strings outside this fragment. -/

def digitsToNat (ds : List Char) : Nat :=
  ds.foldl (fun n c => 10 * n + (c.toNat - 48)) 0

def parseDecCore (cs : List Char) : Option ℚ :=
  let ip := cs.takeWhile Char.isDigit
  let rest := cs.dropWhile Char.isDigit
  match rest with
  | [] => if ip.isEmpty then none else some (digitsToNat ip)
  | '.' :: fp =>
      if fp.all Char.isDigit && !(ip.isEmpty && fp.isEmpty) then
        some ((digitsToNat ip : ℚ) + (digitsToNat fp : ℚ) / 10 ^ fp.length)
      else none
  | _ => none

def parseDecimalString (s : String) : Option ℚ :=
  match s.toList with
  | '+' :: cs => parseDecCore cs
  | '-' :: cs => (parseDecCore cs).map Neg.neg
  | cs => parseDecCore cs

/-! ## BankingIntegrationModule._parse_amount

The runtime value handed to `_parse_amount` is one of: a Python `int` or
`float` (whose `Decimal(str(x))` image is the exact rational value of the
numeral), a string, an existing `Decimal`, or any other object (the final
`else` branch).  An unparseable string makes `Decimal(cleaned)` raise
`decimal.InvalidOperation`, modeled as `Except.error`. -/

inductive AmountVal
  | num (q : ℚ)
  | str (s : String)
  | dec (q : ℚ)
  | noneVal
  | otherObj
deriving DecidableEq

/-- Python `str.lower()` / `str.upper()` (ASCII, as used by the sources). -/
def pyLower (s : String) : String := (s.toList.map Char.toLower).asString

def pyUpper (s : String) : String := (s.toList.map Char.toUpper).asString

/-- Strip leading and trailing whitespace, as Python `str.strip()`. -/
def trimChars (cs : List Char) : List Char :=
  ((cs.dropWhile Char.isWhitespace).reverse.dropWhile Char.isWhitespace).reverse

/-- `amount.replace(chr(36), "").replace(",", "").strip()` — drop every dollar
sign and comma, then strip surrounding whitespace. -/
def cleanAmountString (s : String) : String :=
  (trimChars (s.toList.filter (fun c => c ≠ '$' && c ≠ ','))).asString

instance {ε α : Type} [DecidableEq ε] [DecidableEq α] :
    DecidableEq (Except ε α) := fun x y =>
  match x, y with
  | .error e, .error f =>
      if h : e = f then .isTrue (by rw [h])
      else .isFalse (fun hc => h (Except.error.inj hc))
  | .error _, .ok _ => .isFalse (fun hc => Except.noConfusion hc)
  | .ok _, .error _ => .isFalse (fun hc => Except.noConfusion hc)
  | .ok a, .ok b =>
      if h : a = b then .isTrue (by rw [h])
      else .isFalse (fun hc => h (Except.ok.inj hc))

def parse_amount : AmountVal → Except String ℚ
  | .num q => .ok q
  | .str s =>
      match parseDecimalString (cleanAmountString s) with
      | some q => .ok q
      | none => .error "InvalidOperation"
  | .dec q => .ok q
  | .noneVal => .ok 0
  | .otherObj => .ok 0

/-! ## BankingIntegrationModule: transactions, reconciliation and payments

A raw bank transaction carries the two fields the module's aggregation logic
reads — `amount` (absent keys default to the integer `0` through
`transaction.get` calls) and the optional explicit `type` field.  The other
transformed fields (`id`, dates, `description`, `currency`, …) are copied
verbatim by `_transform_bank_transactions` and are inspected by no claim, so
they are not tracked. -/

structure RawTxn where
  amount? : Option AmountVal := none
  type? : Option String := none
deriving DecidableEq

/-- `_determine_transaction_type`: the amount is parsed first (so an
unparseable amount string raises before the `type` check), then an explicit
`type` field wins, lower-cased; otherwise the sign decides, with `0` giving
a debit. -/
def determine_transaction_type (t : RawTxn) : Except String String := do
  let amount ← parse_amount (t.amount?.getD (.num 0))
  match t.type? with
  | some s => pure (pyLower s)
  | none => pure (if amount > 0 then "credit" else "debit")

/-- The two fields of a transformed transaction that the reconciliation
summary reads. -/
structure ChTxn where
  amount : ℚ
  transaction_type : String
deriving DecidableEq

/-- `_transform_bank_transactions`: parse each amount and classify each
transaction; the first raised exception aborts the whole transform (the
Python loop raises at the first bad record). -/
def transform_bank_transactions (l : List RawTxn) : Except String (List ChTxn) :=
  l.mapM (fun t => do
    let a ← parse_amount (t.amount?.getD (.num 0))
    let ty ← determine_transaction_type t
    pure { amount := a, transaction_type := ty })

/-- Outcome of one `connector.sync_data` call: either the call raised, or it
returned a result dict with optional `status`/`message` keys and a `data`
payload (defaulting to the empty value when absent). -/
inductive ConnCall (α : Type)
  | raises (msg : String)
  | returns (status? : Option String) (message? : Option String) (data : α)

/-- Per-account entry of `sync_bank_transactions[results]`. -/
structure AccountResult where
  status : String
  count? : Option Nat := none
  transactions? : Option (List ChTxn) := none
  message? : Option String := none
deriving DecidableEq

/-- The body of the per-account loop of `sync_bank_transactions`, whose
`try` block converts both an error status from the connector and any raised
exception into an error entry. -/
def syncOneAccount (call : ConnCall (List RawTxn)) : AccountResult :=
  match call with
  | .raises msg => { status := "error", message? := some msg }
  | .returns status? message? data =>
      if status? = some "success" then
        match transform_bank_transactions data with
        | .error e => { status := "error", message? := some e }
        | .ok ts =>
            { status := "success", count? := some ts.length,
              transactions? := some ts }
      else
        { status := "error", message? := some (message?.getD "Unknown error") }

/-- Module wrapper returned by `sync_bank_transactions` (the `module` and
`timestamp` fields are invariant decoration and not tracked). -/
structure BankBatch where
  results : Dict AccountResult
  total_accounts_synced : Nat
deriving DecidableEq

/-- `sync_bank_transactions`: loop strictly sequentially over the account
list, assigning one result per account number into the `results` dict, and
count the entries whose status is `success`. -/
def sync_bank_transactions (env : String → ConnCall (List RawTxn))
    (account_numbers : List String) : BankBatch :=
  let results := account_numbers.foldl
    (fun acc a => dictInsert acc a (syncOneAccount (env a))) []
  { results := results
    total_accounts_synced :=
      (results.filter (fun kv => kv.2.status = "success")).length }

/-- Raw balance payload of a `sync_data('balance', …)` call. -/
structure RawBalance where
  current_balance? : Option AmountVal := none
  available_balance? : Option AmountVal := none
deriving DecidableEq

/-- Per-account entry of `sync_account_balances[results]` (currency and
last-updated decoration not tracked). -/
structure BalanceResult where
  status : String
  current_balance? : Option ℚ := none
  available_balance? : Option ℚ := none
  message? : Option String := none
deriving DecidableEq

/-- The body of the per-account loop of `sync_account_balances`. -/
def syncOneBalance (call : ConnCall RawBalance) : BalanceResult :=
  match call with
  | .raises msg => { status := "error", message? := some msg }
  | .returns status? message? bd =>
      if status? = some "success" then
        match parse_amount (bd.current_balance?.getD (.num 0)),
            parse_amount (bd.available_balance?.getD (.num 0)) with
        | .ok c, .ok a =>
            { status := "success", current_balance? := some c,
              available_balance? := some a }
        | .error e, _ => { status := "error", message? := some e }
        | _, .error e => { status := "error", message? := some e }
      else
        { status := "error", message? := some (message?.getD "Unknown error") }

/-- The `summary` object of `generate_bank_reconciliation_report`. -/
structure ReconSummary where
  total_transactions : Nat
  total_debits : ℚ
  total_credits : ℚ
  net_change : ℚ
  current_balance : ℚ
deriving DecidableEq

structure ReconReport where
  status : String
  summary? : Option ReconSummary := none
  message? : Option String := none
deriving DecidableEq

/-- The aggregation step of `generate_bank_reconciliation_report`:
`total_debits`/`total_credits` sum the (signed) amounts of the transactions
whose `transaction_type` is `debit`/`credit`, and
`net_change = total_credits - total_debits`. -/
def reconSummaryOf (txns : List ChTxn) (current_balance : ℚ) : ReconSummary :=
  let total_debits :=
    ((txns.filter (fun t => t.transaction_type = "debit")).map ChTxn.amount).sum
  let total_credits :=
    ((txns.filter (fun t => t.transaction_type = "credit")).map ChTxn.amount).sum
  { total_transactions := txns.length
    total_debits := total_debits
    total_credits := total_credits
    net_change := total_credits - total_debits
    current_balance := current_balance }

/-- `generate_bank_reconciliation_report` for one account: sync the
transactions, abort with an error result unless that succeeded, then fetch
the balance (falling back to `0` when that sync fails) and aggregate. -/
def generate_bank_reconciliation_report
    (envTxn : String → ConnCall (List RawTxn))
    (envBal : String → ConnCall RawBalance)
    (account_number : String) : ReconReport :=
  let bank_sync := sync_bank_transactions envTxn [account_number]
  -- the loop in `sync_bank_transactions` put an entry under every account
  -- number of its input list, so the lookup cannot miss
  let acct := (dictGet bank_sync.results account_number).getD
    { status := "error" }
  if acct.status ≠ "success" then
    { status := "error",
      message? := some "Failed to sync bank transactions for reconciliation" }
  else
    let txns := acct.transactions?.getD []
    let bal := syncOneBalance (envBal account_number)
    let current_balance :=
      if bal.status = "success" then bal.current_balance?.getD 0 else 0
    { status := "success",
      summary? := some (reconSummaryOf txns current_balance) }

/-! ## BankingIntegrationModule: payment validation and initiation -/

/-- Single-quote character, used inside the module's error strings. -/
def sq : String := "\x27"

def missingFieldMsg (f : String) : String :=
  "Required field " ++ sq ++ f ++ sq ++ " is missing"

/-- The payment dict handed to `initiate_payment`; every key is optional. -/
structure PaymentData where
  amount? : Option AmountVal := none
  recipient_account? : Option String := none
  recipient_name? : Option String := none
  recipient_email? : Option String := none
  currency? : Option String := none
  msg? : Option String := none
  security_question? : Option String := none
  security_answer? : Option String := none
  recipient_bank? : Option String := none
  swift_code? : Option String := none
  purpose_code? : Option String := none
  reference? : Option String := none
  recipient_routing? : Option String := none
  transaction_code? : Option String := none
  description? : Option String := none
deriving DecidableEq

structure ValidationResult where
  valid : Bool
  errors : List String
deriving DecidableEq

/-- `_validate_payment_data`.  The `except (ValueError, TypeError)` clause
never fires: `_parse_amount` only raises `decimal.InvalidOperation`, which is
neither, so an unparseable string amount propagates out of the validator
(modeled as `Except.error`). -/
def validate_payment_data (p : PaymentData) : Except String ValidationResult :=
  let e1 := if p.amount?.isNone then [missingFieldMsg "amount"] else []
  let e2 := if p.recipient_account?.isNone then
    [missingFieldMsg "recipient_account"] else []
  let e3 := if p.recipient_name?.isNone then
    [missingFieldMsg "recipient_name"] else []
  match parse_amount (p.amount?.getD (.num 0)) with
  | .error e => .error e
  | .ok amount =>
      let e4 := if amount ≤ 0 then ["Amount must be greater than zero"] else []
      let e5 := if (p.recipient_account?.getD "").length < 5 then
        ["Invalid recipient account number"] else []
      let errors := e1 ++ e2 ++ e3 ++ e4 ++ e5
      .ok { valid := errors.isEmpty, errors := errors }

/-- `_transform_to_interac_format`; the source stringifies the amount with
`str(...)`, which no claim inspects, so the raw value is carried instead. -/
structure InteracPayment where
  amount : Option AmountVal
  currency : String
  recipient_email : Option String
  recipient_name : Option String
  message : String
  security_question : Option String
  security_answer : Option String
deriving DecidableEq

structure WirePayment where
  amount : Option AmountVal
  currency : String
  beneficiary_name : Option String
  beneficiary_account : Option String
  beneficiary_bank : Option String
  swift_code : Option String
  purpose_code : Option String
  reference : Option String
deriving DecidableEq

structure AchPayment where
  amount : Option AmountVal
  currency : String
  receiver_name : Option String
  receiver_account : Option String
  receiver_routing : Option String
  transaction_code : String
  description : Option String
deriving DecidableEq

/-- Result of `_transform_payment_to_bank_format`: one of the three gateway
shapes (each tagged with its `payment_type`), or the input passed through. -/
inductive BankPaymentData
  | interac (p : InteracPayment)
  | wire (p : WirePayment)
  | ach (p : AchPayment)
  | passthrough (p : PaymentData)
deriving DecidableEq

def transform_to_interac_format (p : PaymentData) : InteracPayment :=
  { amount := p.amount?
    currency := p.currency?.getD "CAD"
    recipient_email := p.recipient_email?
    recipient_name := p.recipient_name?
    message := p.msg?.getD ""
    security_question := p.security_question?
    security_answer := p.security_answer? }

def transform_to_wire_format (p : PaymentData) : WirePayment :=
  { amount := p.amount?
    currency := p.currency?.getD "CAD"
    beneficiary_name := p.recipient_name?
    beneficiary_account := p.recipient_account?
    beneficiary_bank := p.recipient_bank?
    swift_code := p.swift_code?
    purpose_code := p.purpose_code?
    reference := p.reference? }

def transform_to_ach_format (p : PaymentData) : AchPayment :=
  { amount := p.amount?
    currency := p.currency?.getD "CAD"
    receiver_name := p.recipient_name?
    receiver_account := p.recipient_account?
    receiver_routing := p.recipient_routing?
    transaction_code := p.transaction_code?.getD "22"
    description := p.description? }

def transform_payment_to_bank_format (payment_gateway : String)
    (p : PaymentData) : BankPaymentData :=
  if pyLower payment_gateway = "interac" then .interac (transform_to_interac_format p)
  else if pyLower payment_gateway = "wire" then .wire (transform_to_wire_format p)
  else if pyLower payment_gateway = "ach" then .ach (transform_to_ach_format p)
  else .passthrough p

/-- Return dict of a `connector.send_data` call for a payment. -/
structure SendResult where
  status? : Option String := none
  message? : Option String := none
  payment_id? : Option String := none
  transaction_id? : Option String := none
deriving DecidableEq

inductive SendCall
  | raises (msg : String)
  | returns (r : SendResult)

/-- Return dict of `initiate_payment` (currency/timestamp decoration not
tracked; the validation-failure dict carries no `payment_method` key). -/
structure PayResult where
  status : String
  message? : Option String := none
  errors? : Option (List String) := none
  payment_id? : Option String := none
  transaction_id? : Option String := none
  amount? : Option AmountVal := none
  recipient? : Option String := none
  payment_method? : Option String := none
deriving DecidableEq

/-- `initiate_payment`, with the connector's `send_data` as an oracle over
the transformed payload.  The second component records whether the
connector's `send_data` was invoked at all. -/
def initiate_payment (payment_gateway : String)
    (send : BankPaymentData → SendCall) (p : PaymentData) : PayResult × Bool :=
  match validate_payment_data p with
  | .error e =>
      -- the InvalidOperation raised inside `_validate_payment_data` is
      -- caught by the outer `except Exception`
      ({ status := "error", message? := some e,
         payment_method? := some payment_gateway }, false)
  | .ok v =>
      if !v.valid then
        ({ status := "error", message? := some "Payment validation failed",
           errors? := some v.errors }, false)
      else
        match send (transform_payment_to_bank_format payment_gateway p) with
        | .raises e =>
            ({ status := "error", message? := some e,
               payment_method? := some payment_gateway }, true)
        | .returns r =>
            if r.status? = some "success" then
              ({ status := "success", payment_id? := r.payment_id?,
                 transaction_id? := r.transaction_id?, amount? := p.amount?,
                 recipient? := p.recipient_name?,
                 payment_method? := some payment_gateway }, true)
            else
              ({ status := "error",
                 message? := some (r.message?.getD "Payment failed"),
                 payment_method? := some payment_gateway }, true)

/-! ## BaseConnector.validate_config -/

/-- A configuration value, together with its Python truthiness. -/
inductive ConfigVal
  | str (s : String)
  | int (n : Int)
  | bool (b : Bool)
  | noneVal
deriving DecidableEq

def ConfigVal.truthy : ConfigVal → Bool
  | .str s => !s.isEmpty
  | .int n => decide (n ≠ 0)
  | .bool b => b
  | .noneVal => false

def emptyFieldMsg (f : String) : String :=
  "Required field " ++ sq ++ f ++ sq ++ " cannot be empty"

/-- The field loop of `validate_config`: the Python loop appends one error
per missing-or-falsy required field to `errors`, in declaration order, which
is the list this recursion produces. -/
def validate_config_loop (config : Dict ConfigVal) : List String → List String
  | [] => []
  | f :: rest =>
      match dictGet config f with
      | none => missingFieldMsg f :: validate_config_loop config rest
      | some v =>
          if !v.truthy then emptyFieldMsg f :: validate_config_loop config rest
          else validate_config_loop config rest

/-- `BaseConnector.validate_config`: an empty (falsy) config dict
short-circuits with a single error; otherwise the loop appends one error per
required field that is missing or has a falsy value. -/
def validate_config (required_fields : List String)
    (config : Dict ConfigVal) : List String :=
  if config.isEmpty then ["Configuration is required"]
  else validate_config_loop config required_fields

/-- `requiredConfigFields` declarations of the concrete connector family. -/
def messageConnectorRequiredFields : List String :=
  ["host", "port", "messaging_type"]

def kafkaRequiredFields : List String :=
  messageConnectorRequiredFields ++ ["consumer_group"]

def rabbitMQRequiredFields : List String :=
  messageConnectorRequiredFields ++ ["username", "password"]

def customConnectorRequiredFields : List String :=
  ["plugin_path", "plugin_class"]

/-! ## Operation log -/

/-- One `log_operation` record: connector operation, status, details. -/
structure LogEntry where
  operation : String
  status : String
  details : String
deriving DecidableEq

def errorLogCount (logs : List LogEntry) : Nat :=
  (logs.filter (fun e => e.status = "error")).length

def opLogCount (logs : List LogEntry) (op : String) : Nat :=
  (logs.filter (fun e => e.operation = op)).length

def opErrorLogCount (logs : List LogEntry) (op : String) : Nat :=
  (logs.filter (fun e => e.operation = op && e.status = "error")).length

/-! ## KafkaConnector

The transport library is an oracle: each call site that can touch the
broker (client construction, `poll`, `send`, `close`) is an `Except` outcome
supplied by the environment.  The in-memory connector state tracks
`is_connected` plus whether the producer/consumer handles are non-`None`
(`connect` assigns the producer before the consumer, so a failure while
building the consumer leaves the producer assigned). -/

structure KafkaState where
  is_connected : Bool := false
  hasProducer : Bool := false
  hasConsumer : Bool := false
  last_sync : Option Nat := none
deriving DecidableEq

inductive ConnectOutcome
  | ok
  | failProducer (msg : String)
  | failConsumer (msg : String)
deriving DecidableEq

structure KMsg where
  topic : String
  partition : Int
  offset : Int
  key : Option String
  value : String
  timestamp : Int
deriving DecidableEq

structure KafkaEnv where
  connectOut : ConnectOutcome
  poll : Except String (List KMsg)
  sendAck : Except String (String × Int × Int)
  closeProducer : Except String Unit
  closeConsumer : Except String Unit
  now : Nat

/-- `KafkaConnector.connect`. -/
def kafka_connect (env : KafkaEnv) (st : KafkaState) :
    Bool × KafkaState × List LogEntry :=
  match env.connectOut with
  | .failProducer m =>
      (false, st, [⟨"connect", "error", "Failed to connect to Kafka: " ++ m⟩])
  | .failConsumer m =>
      (false, { st with hasProducer := true },
        [⟨"connect", "error", "Failed to connect to Kafka: " ++ m⟩])
  | .ok =>
      (true, { st with is_connected := true, hasProducer := true,
                       hasConsumer := true },
        [⟨"connect", "success", "Connected to Kafka cluster"⟩])

/-- `KafkaConnector.disconnect`: close the handles that exist; a raised
close leaves `is_connected` (and the handles) untouched and returns
`False`; otherwise `is_connected` is cleared.  The handle flags are never
reset to `None`, matching the source. -/
def kafka_disconnect (env : KafkaEnv) (st : KafkaState) :
    Bool × KafkaState × List LogEntry :=
  match (if st.hasProducer then env.closeProducer else .ok ()) with
  | .error m =>
      (false, st,
        [⟨"disconnect", "error", "Failed to disconnect from Kafka: " ++ m⟩])
  | .ok _ =>
      match (if st.hasConsumer then env.closeConsumer else .ok ()) with
      | .error m =>
          (false, st,
            [⟨"disconnect", "error", "Failed to disconnect from Kafka: " ++ m⟩])
      | .ok _ =>
          (true, { st with is_connected := false },
            [⟨"disconnect", "success", "Disconnected from Kafka cluster"⟩])

/-- A filter-dict value (the ERP/banking filter injection tables mix
strings, booleans and `None`s). -/
inductive FilterVal
  | str (s : String)
  | int (n : Int)
  | bool (b : Bool)
  | noneVal
deriving DecidableEq

/-- Return dict of `KafkaConnector.sync_data`. -/
structure KSyncResult where
  status : String
  data : List KMsg := []
  count? : Option Nat := none
  topic? : Option FilterVal := none
  message? : Option String := none
deriving DecidableEq

/-- `KafkaConnector.sync_data`: implicit connect when disconnected (its
outcome merely logged), topic from a truthy filters dict (whose `topic` key
may be absent, giving `None`) or the `data_type`, then subscribe+poll.  A
`None` consumer (after a failed connect) raises `AttributeError` inside the
`try`; the oracle decides the poll outcome otherwise.  The poll timeout
(`filters.get('timeout', 5000)`) only parameterizes the poll oracle. -/
def kafka_sync_data (env : KafkaEnv) (st : KafkaState) (data_type : String)
    (filters : Option (Dict FilterVal)) :
    KSyncResult × KafkaState × List LogEntry :=
  let cl := if !st.is_connected then kafka_connect env st else (true, st, [])
  let st1 := cl.2.1
  let logs1 := cl.2.2
  let topic? : Option FilterVal :=
    match filters with
    | some f => if f.isEmpty then some (.str data_type) else dictGet f "topic"
    | none => some (.str data_type)
  if !st1.hasConsumer then
    -- `self.consumer.subscribe` on `None`: str(AttributeError) message
    ({ status := "error", message? := some "AttributeError" }, st1,
      logs1 ++ [⟨"sync_data", "error",
        "Failed to consume messages: AttributeError"⟩])
  else
    match env.poll with
    | .error m =>
        ({ status := "error", message? := some m }, st1,
          logs1 ++ [⟨"sync_data", "error", "Failed to consume messages: " ++ m⟩])
    | .ok msgs =>
        ({ status := "success", data := msgs, count? := some msgs.length,
           topic? := topic? }, { st1 with last_sync := some env.now },
          logs1 ++ [⟨"sync_data", "success", "Consumed messages"⟩])

/-- Return dict of `KafkaConnector.send_data`. -/
structure KSendResult where
  status : String
  message : String
  details? : Option (String × Int × Int) := none
deriving DecidableEq

/-- `KafkaConnector.send_data`: implicit connect, then publish and wait for
the acknowledgment; a `None` producer raises `AttributeError`. -/
def kafka_send_data (env : KafkaEnv) (st : KafkaState) :
    KSendResult × KafkaState × List LogEntry :=
  let cl := if !st.is_connected then kafka_connect env st else (true, st, [])
  let st1 := cl.2.1
  let logs1 := cl.2.2
  if !st1.hasProducer then
    ({ status := "error", message := "AttributeError" }, st1,
      logs1 ++ [⟨"send_data", "error", "Failed to send message: AttributeError"⟩])
  else
    match env.sendAck with
    | .error m =>
        ({ status := "error", message := m }, st1,
          logs1 ++ [⟨"send_data", "error", "Failed to send message: " ++ m⟩])
    | .ok md =>
        ({ status := "success", message := "Message sent successfully",
           details? := some md }, st1,
          logs1 ++ [⟨"send_data", "success", "Message sent"⟩])

/-! ## CRMConnector connect/disconnect

Every vendor branch of `CRMConnector.connect` (`salesforce`, `dynamics`,
`hubspot`, generic fallback) just sets `is_connected = True` and logs;
`disconnect` clears the flag, logs, and returns `True` — its `except` arm is
unreachable because the body cannot raise. -/

structure CRMState where
  is_connected : Bool := false
  last_sync : Option Nat := none
deriving DecidableEq

def crm_connect (st : CRMState) : Bool × CRMState × List LogEntry :=
  (true, { st with is_connected := true },
    [⟨"connect", "success", "Connected"⟩])

def crm_disconnect (st : CRMState) : Bool × CRMState × List LogEntry :=
  (true, { st with is_connected := false },
    [⟨"disconnect", "success", "Disconnected"⟩])

/-! ## CustomConnector / plugin loader -/

/-- Result value returned by a plugin's `sync_data`: a dict (possibly with a
`data` key holding a list) or any non-dict value. -/
inductive PluginVal
  | pdict (entries : Dict (List String))
  | nonDict (payload : List String)
deriving DecidableEq

/-- Capability record of a loaded plugin instance, with an oracle outcome
for each optional method. -/
structure Plugin where
  hasInitialize : Bool := false
  initializeOutcome : Except String Bool := .ok true
  hasCleanup : Bool := false
  cleanupOutcome : Except String Unit := .ok ()
  hasSyncData : Bool := false
  syncOutcome : Except String PluginVal := .ok (.pdict [])
  hasSendData : Bool := false
  sendOutcome : Except String PluginVal := .ok (.pdict [])
deriving DecidableEq

structure CustomState where
  is_connected : Bool := false
  plugin : Option Plugin := none
  last_sync : Option Nat := none
deriving DecidableEq

structure CustomConfig where
  plugin_path? : Option String := none
  plugin_class? : Option String := none
deriving DecidableEq

/-- Outcome of resolving `plugin_path`/`plugin_class` into an instance:
loading/instantiation raised, `getattr` produced a non-class (structural
validation rejects it), or an instance was constructed and assigned. -/
inductive LoadOutcome
  | raisesL (msg : String)
  | notAClass
  | loaded (p : Plugin)
deriving DecidableEq

/-- `CustomConnector.connect`: missing/empty path or class fails fast; then
load, validate, instantiate; an `initialize` method is called when present
and a raise or falsy return fails the connect.  The instance is assigned
before `initialize` runs, so a failed initialize leaves the plugin loaded
but the connector disconnected. -/
def custom_connect (cfg : CustomConfig) (load : LoadOutcome)
    (st : CustomState) : Bool × CustomState × List LogEntry :=
  if (cfg.plugin_path?.getD "").isEmpty || (cfg.plugin_class?.getD "").isEmpty then
    (false, st, [⟨"connect", "error", "Plugin path and class are required"⟩])
  else
    match load with
    | .raisesL m =>
        (false, st,
          [⟨"connect", "error", "Failed to load custom plugin: " ++ m⟩])
    | .notAClass =>
        (false, st, [⟨"connect", "error", "Invalid plugin class structure"⟩])
    | .loaded p =>
        let st1 := { st with plugin := some p }
        if p.hasInitialize then
          match p.initializeOutcome with
          | .error m =>
              (false, st1,
                [⟨"connect", "error", "Failed to load custom plugin: " ++ m⟩])
          | .ok b =>
              if !b then
                (false, st1,
                  [⟨"connect", "error", "Plugin initialization failed"⟩])
              else
                (true, { st1 with is_connected := true },
                  [⟨"connect", "success", "Custom plugin loaded successfully"⟩])
        else
          (true, { st1 with is_connected := true },
            [⟨"connect", "success", "Custom plugin loaded successfully"⟩])

/-- Return dict of `CustomConnector.sync_data`. -/
structure CSyncResult where
  status : String
  data : List String := []
  count : Nat := 0
  message? : Option String := none
  plugin_result? : Option PluginVal := none
deriving DecidableEq

/-- The part of `CustomConnector.sync_data` after the implicit connect:
`hasattr` probing (false on a `None` instance as well) returns the
structured missing-method error without raising and without logging; a
raise from the plugin's own method is caught and logged. -/
def custom_sync_body (now : Nat) (st1 : CustomState)
    (logs1 : List LogEntry) : CSyncResult × CustomState × List LogEntry :=
  match st1.plugin with
  | none =>
      ({ status := "error",
         message? := some "Plugin does not implement sync_data method" },
        st1, logs1)
  | some p =>
      if !p.hasSyncData then
        ({ status := "error",
           message? := some "Plugin does not implement sync_data method" },
          st1, logs1)
      else
        match p.syncOutcome with
        | .error m =>
            ({ status := "error", message? := some m }, st1,
              logs1 ++ [⟨"sync_data", "error",
                "Custom plugin sync failed: " ++ m⟩])
        | .ok r =>
            ({ status := "success"
               data := match r with
                 | .pdict d => (dictGet d "data").getD []
                 | .nonDict v => v
               count := match r with
                 | .pdict d => if dictHasKey d "data" then
                     ((dictGet d "data").getD []).length else 0
                 | .nonDict _ => 0
               plugin_result? := some r },
              { st1 with last_sync := some now },
              logs1 ++ [⟨"sync_data", "success", "Custom plugin synced data"⟩])

/-- `CustomConnector.sync_data`: implicit connect when disconnected or
without a plugin, then the body above. -/
def custom_sync_data (cfg : CustomConfig) (load : LoadOutcome) (now : Nat)
    (st : CustomState) : CSyncResult × CustomState × List LogEntry :=
  let cl := if !st.is_connected || st.plugin.isNone then
    custom_connect cfg load st else (true, st, [])
  custom_sync_body now cl.2.1 cl.2.2

/-- Return dict of `CustomConnector.send_data`. -/
structure CSendResult where
  status : String
  message : String
  plugin_result? : Option PluginVal := none
deriving DecidableEq

/-- The part of `CustomConnector.send_data` after the implicit connect,
mirroring `custom_sync_body` without the `last_sync` update. -/
def custom_send_body (st1 : CustomState) (logs1 : List LogEntry) :
    CSendResult × CustomState × List LogEntry :=
  match st1.plugin with
  | none =>
      ({ status := "error",
         message := "Plugin does not implement send_data method" }, st1, logs1)
  | some p =>
      if !p.hasSendData then
        ({ status := "error",
           message := "Plugin does not implement send_data method" },
          st1, logs1)
      else
        match p.sendOutcome with
        | .error m =>
            ({ status := "error", message := m }, st1,
              logs1 ++ [⟨"send_data", "error",
                "Custom plugin send failed: " ++ m⟩])
        | .ok r =>
            ({ status := "success", message := "Data sent via custom plugin",
               plugin_result? := some r }, st1,
              logs1 ++ [⟨"send_data", "success", "Custom plugin sent data"⟩])

/-- `CustomConnector.send_data`: implicit connect when disconnected or
without a plugin, then the body above. -/
def custom_send_data (cfg : CustomConfig) (load : LoadOutcome)
    (st : CustomState) : CSendResult × CustomState × List LogEntry :=
  let cl := if !st.is_connected || st.plugin.isNone then
    custom_connect cfg load st else (true, st, [])
  custom_send_body cl.2.1 cl.2.2

/-! ## ERPIntegrationModule

ERP records travel as dicts of `AmountVal` values (`AmountVal.noneVal`
doubles as Python `None`, the result of a `dict.get` miss).  `float(x)`
conversions inside the vendor transforms can raise `ValueError`/`TypeError`
and are modeled with `pyFloat`. -/

/-- Python truthiness of a field value. -/
def AmountVal.truthy : AmountVal → Bool
  | .num q => decide (q ≠ 0)
  | .str s => !s.isEmpty
  | .dec q => decide (q ≠ 0)
  | .noneVal => false
  | .otherObj => true

/-- Python `float(x)`: numbers pass through, strings are parsed after
stripping surrounding whitespace, `None` and other objects raise. -/
def pyFloat : AmountVal → Except String ℚ
  | .num q => .ok q
  | .str s =>
      match parseDecimalString ((trimChars s.toList).asString) with
      | some q => .ok q
      | none => .error "ValueError"
  | .dec q => .ok q
  | .noneVal => .error "TypeError"
  | .otherObj => .error "TypeError"

/-- `record.get(k)` with Python's `None` default. -/
def fieldGet (r : Dict AmountVal) (k : String) : AmountVal :=
  (dictGet r k).getD .noneVal

def sapEndpointMappings : Dict String :=
  [("accounts_payable", "AP_INVOICE"), ("accounts_receivable", "AR_INVOICE"),
   ("general_ledger", "GL_ACCOUNT"), ("cost_centers", "COST_CENTER"),
   ("projects", "PROJECT_SYSTEM")]

def postgresqlErpEndpointMappings : Dict String :=
  [("accounts_payable", "api/v1/ap/invoices"),
   ("accounts_receivable", "api/v1/ar/invoices"),
   ("general_ledger", "api/v1/gl/journals"),
   ("cost_centers", "api/v1/gl/costcenters"),
   ("projects", "api/v1/pm/projects")]

def dynamicsEndpointMappings : Dict String :=
  [("accounts_payable", "vendorInvoices"),
   ("accounts_receivable", "customerInvoices"),
   ("general_ledger", "generalLedgerEntries"), ("cost_centers", "dimensions"),
   ("projects", "projects")]

def map_sap_endpoint (data_type : String) : String :=
  (dictGet sapEndpointMappings data_type).getD (pyUpper data_type)

def map_postgresql_erp_endpoint (data_type : String) : String :=
  (dictGet postgresqlErpEndpointMappings data_type).getD
    ("api/v1/" ++ data_type.map (fun c => if c = '_' then '/' else c))

def map_dynamics_endpoint (data_type : String) : String :=
  (dictGet dynamicsEndpointMappings data_type).getD data_type

/-- `_map_data_type_to_erp_endpoint`: vendor lookup tables with a generic
underscore-to-dash transliteration fallback. -/
def map_data_type_to_erp_endpoint (erp_type data_type : String) : String :=
  if pyLower erp_type = "sap" then map_sap_endpoint data_type
  else if pyLower erp_type = "postgresql_erp" then
    map_postgresql_erp_endpoint data_type
  else if pyLower erp_type = "dynamics" then map_dynamics_endpoint data_type
  else data_type.map (fun c => if c = '_' then '-' else c)

def sapApRecord (r : Dict AmountVal) : Except String (Dict AmountVal) := do
  let amt ← pyFloat (fieldGet r "WRBTR")
  pure [("id", fieldGet r "BELNR"), ("vendor_id", fieldGet r "LIFNR"),
    ("vendor_name", fieldGet r "NAME1"),
    ("invoice_number", fieldGet r "XBLNR"), ("amount", .num amt),
    ("currency", fieldGet r "WAERS"), ("due_date", fieldGet r "ZFBDT"),
    ("posting_date", fieldGet r "BUDAT"),
    ("status", .str (if (fieldGet r "AUGBL").truthy then "paid" else "open")),
    ("erp_source", .str "SAP")]

def sapArRecord (r : Dict AmountVal) : Except String (Dict AmountVal) := do
  let amt ← pyFloat (fieldGet r "WRBTR")
  pure [("id", fieldGet r "BELNR"), ("customer_id", fieldGet r "KUNNR"),
    ("customer_name", fieldGet r "NAME1"),
    ("invoice_number", fieldGet r "XBLNR"), ("amount", .num amt),
    ("currency", fieldGet r "WAERS"), ("due_date", fieldGet r "ZFBDT"),
    ("posting_date", fieldGet r "BUDAT"),
    ("status", .str (if (fieldGet r "AUGBL").truthy then "paid" else "open")),
    ("erp_source", .str "SAP")]

/-- `_transform_sap_data`: only the two invoice data types are mapped; any
other data type leaves `transformed` empty. -/
def transform_sap_data (data_type : String) (data : List (Dict AmountVal)) :
    Except String (List (Dict AmountVal)) :=
  if data_type = "accounts_payable" then data.mapM sapApRecord
  else if data_type = "accounts_receivable" then data.mapM sapArRecord
  else .ok []

def postgresApRecord (r : Dict AmountVal) : Except String (Dict AmountVal) := do
  let amt ← pyFloat (fieldGet r "invoice_amount")
  pure [("id", fieldGet r "invoice_id"), ("vendor_id", fieldGet r "vendor_id"),
    ("vendor_name", fieldGet r "vendor_name"),
    ("invoice_number", fieldGet r "invoice_number"), ("amount", .num amt),
    ("currency", (dictGet r "currency_code").getD (.str "CAD")),
    ("due_date", fieldGet r "due_date"),
    ("posting_date", fieldGet r "invoice_date"),
    ("status", .str (if fieldGet r "payment_status" = .str "PAID" then
      "paid" else "open")),
    ("erp_source", .str "PostgreSQL_ERP")]

def postgresArRecord (r : Dict AmountVal) : Except String (Dict AmountVal) := do
  let amt ← pyFloat (fieldGet r "invoice_amount")
  pure [("id", fieldGet r "invoice_id"),
    ("customer_id", fieldGet r "customer_id"),
    ("customer_name", fieldGet r "customer_name"),
    ("invoice_number", fieldGet r "invoice_number"), ("amount", .num amt),
    ("currency", (dictGet r "currency_code").getD (.str "CAD")),
    ("due_date", fieldGet r "due_date"),
    ("posting_date", fieldGet r "invoice_date"),
    ("status", .str (if fieldGet r "payment_status" = .str "PAID" then
      "paid" else "open")),
    ("erp_source", .str "PostgreSQL_ERP")]

def transform_postgresql_erp_data (data_type : String)
    (data : List (Dict AmountVal)) : Except String (List (Dict AmountVal)) :=
  if data_type = "accounts_payable" then data.mapM postgresApRecord
  else if data_type = "accounts_receivable" then data.mapM postgresArRecord
  else .ok []

def dynamicsApRecord (r : Dict AmountVal) : Except String (Dict AmountVal) := do
  let amt ← pyFloat (fieldGet r "InvoiceAmount")
  pure [("id", fieldGet r "RecId"), ("vendor_id", fieldGet r "VendAccount"),
    ("vendor_name", fieldGet r "VendorName"),
    ("invoice_number", fieldGet r "InvoiceNumber"), ("amount", .num amt),
    ("currency", fieldGet r "CurrencyCode"),
    ("due_date", fieldGet r "DueDate"),
    ("posting_date", fieldGet r "InvoiceDate"),
    ("status", fieldGet r "InvoiceStatus"),
    ("erp_source", .str "Dynamics")]

def transform_dynamics_data (data_type : String)
    (data : List (Dict AmountVal)) : Except String (List (Dict AmountVal)) :=
  if data_type = "accounts_payable" then data.mapM dynamicsApRecord
  else .ok []

/-- `_transform_erp_data`: vendor dispatch with a generic passthrough. -/
def transform_erp_data (erp_type data_type : String)
    (data : List (Dict AmountVal)) : Except String (List (Dict AmountVal)) :=
  if pyLower erp_type = "sap" then transform_sap_data data_type data
  else if pyLower erp_type = "postgresql_erp" then
    transform_postgresql_erp_data data_type data
  else if pyLower erp_type = "dynamics" then
    transform_dynamics_data data_type data
  else .ok data

/-- Per-data-type entry of `sync_financial_data[results]`; the `except`
entry of a raised iteration carries no `erp_endpoint` key. -/
structure DataTypeResult where
  status : String
  count? : Option Nat := none
  data? : Option (List (Dict AmountVal)) := none
  message? : Option String := none
  erp_endpoint? : Option String := none
deriving DecidableEq

/-- The body of the per-data-type loop of `sync_financial_data`.  The
filters merged by `_apply_erp_specific_filters` only parameterize the
connector-call oracle (see the heap model below for the filter functions
themselves). -/
def syncOneDataType (erp_type : String)
    (call : ConnCall (List (Dict AmountVal))) (data_type : String) :
    DataTypeResult :=
  let erp_endpoint := map_data_type_to_erp_endpoint erp_type data_type
  match call with
  | .raises m => { status := "error", message? := some m }
  | .returns status? message? data =>
      if status? = some "success" then
        match transform_erp_data erp_type data_type data with
        | .error e => { status := "error", message? := some e }
        | .ok td =>
            { status := "success", count? := some td.length,
              data? := some td, erp_endpoint? := some erp_endpoint }
      else
        { status := "error", message? := some (message?.getD "Unknown error"),
          erp_endpoint? := some erp_endpoint }

structure ErpBatch where
  results : Dict DataTypeResult
  total_synced : Nat
deriving DecidableEq

/-- `sync_financial_data`: sequential loop over the data types, one results
entry per data type, `total_synced` counting the success entries. -/
def sync_financial_data (erp_type : String)
    (env : String → ConnCall (List (Dict AmountVal)))
    (data_types : List String) : ErpBatch :=
  let results := data_types.foldl
    (fun acc dt => dictInsert acc dt (syncOneDataType erp_type (env dt) dt)) []
  { results := results
    total_synced :=
      (results.filter (fun kv => kv.2.status = "success")).length }

/-! ## Filter injection on a mutable-dict heap

Python dicts are mutable references.  To state that the modules never
mutate a caller's filters dict, dicts live in a heap addressed by `Nat`
references; `filters.copy()` allocates a fresh cell and `.update(...)`
mutates a cell in place. -/

structure Heap where
  cells : List (Dict FilterVal)

def Heap.get (h : Heap) (r : Nat) : Dict FilterVal :=
  (h.cells.getD r [])

def Heap.alloc (h : Heap) (d : Dict FilterVal) : Heap × Nat :=
  (⟨h.cells ++ [d]⟩, h.cells.length)

def Heap.set (h : Heap) (r : Nat) (d : Dict FilterVal) : Heap :=
  ⟨h.cells.set r d⟩

def rbcFilters : Dict FilterVal :=
  [("institution_id", .str "003"), ("format", .str "json"),
   ("include_pending", .bool true)]

def tdFilters : Dict FilterVal :=
  [("institution_id", .str "004"), ("format", .str "json"),
   ("include_holds", .bool true)]

def bmoFilters : Dict FilterVal :=
  [("institution_id", .str "001"), ("format", .str "json"),
   ("include_memo", .bool true)]

def scotiabankFilters : Dict FilterVal :=
  [("institution_id", .str "002"), ("format", .str "json"),
   ("include_categories", .bool true)]

/-- `_apply_bank_specific_filters`: copy the caller's dict into a fresh
cell, then update only the copy with the vendor table. -/
def apply_bank_specific_filters (bank_type : String) (h : Heap) (r : Nat) :
    Heap × Nat :=
  let d := h.get r
  let al := h.alloc d
  let updated :=
    if pyLower bank_type = "rbc" then dictUpdate d rbcFilters
    else if pyLower bank_type = "td" then dictUpdate d tdFilters
    else if pyLower bank_type = "bmo" then dictUpdate d bmoFilters
    else if pyLower bank_type = "scotiabank" then
      dictUpdate d scotiabankFilters
    else d
  (al.1.set al.2 updated, al.2)

/-- Connector config entries read by `_get_sap_filters`,
`_get_postgresql_erp_filters` and `_get_dynamics_filters`. -/
structure ErpConfig where
  sap_client? : Option FilterVal := none
  postgresql_schema? : Option FilterVal := none
  company_id? : Option FilterVal := none
  fiscal_year? : Option FilterVal := none
  default_currency? : Option FilterVal := none
  dynamics_company? : Option FilterVal := none
  dynamics_data_area_id? : Option FilterVal := none
deriving DecidableEq

def sap_filters (cfg : ErpConfig) : Dict FilterVal :=
  [("client", cfg.sap_client?.getD (.str "100")), ("language", .str "EN")]

def postgresql_erp_filters (cfg : ErpConfig) : Dict FilterVal :=
  [("database_schema", cfg.postgresql_schema?.getD (.str "public")),
   ("company_id", cfg.company_id?.getD .noneVal),
   ("fiscal_year", cfg.fiscal_year?.getD .noneVal),
   ("currency", cfg.default_currency?.getD (.str "CAD"))]

def dynamics_filters (cfg : ErpConfig) : Dict FilterVal :=
  [("company", cfg.dynamics_company?.getD .noneVal),
   ("dataAreaId", cfg.dynamics_data_area_id?.getD .noneVal)]

/-- `_apply_erp_specific_filters`: `if not filters: filters = {}` rebinds the
local name to a fresh empty dict when the argument is `None` or an empty
dict (the caller's dict is untouched either way); then copy and update only
the copy. -/
def apply_erp_specific_filters (erp_type : String) (cfg : ErpConfig)
    (h : Heap) (r? : Option Nat) : Heap × Nat :=
  let base : Dict FilterVal :=
    match r? with
    | none => []
    | some r => h.get r
  let al := h.alloc base
  let updated :=
    if pyLower erp_type = "sap" then dictUpdate base (sap_filters cfg)
    else if pyLower erp_type = "postgresql_erp" then
      dictUpdate base (postgresql_erp_filters cfg)
    else if pyLower erp_type = "dynamics" then
      dictUpdate base (dynamics_filters cfg)
    else base
  (al.1.set al.2 updated, al.2)

/-! ## Evaluation lemmas for the concrete amounts used below -/

theorem parse_amount_str_100 : parse_amount (.str "100.00") = .ok (100 : ℚ) := by
  have h : parse_amount (.str "100.00") =
      .ok (((100 : ℕ) : ℚ) + ((0 : ℕ) : ℚ) / 10 ^ (2 : ℕ)) := rfl
  rw [h]; norm_num

theorem parse_amount_str_neg50 :
    parse_amount (.str "-50.00") = .ok (-50 : ℚ) := by
  have h : parse_amount (.str "-50.00") =
      .ok (-(((50 : ℕ) : ℚ) + ((0 : ℕ) : ℚ) / 10 ^ (2 : ℕ))) := rfl
  rw [h]; norm_num

theorem parse_amount_str_2050 :
    parse_amount (.str "2050.00") = .ok (2050 : ℚ) := by
  have h : parse_amount (.str "2050.00") =
      .ok (((2050 : ℕ) : ℚ) + ((0 : ℕ) : ℚ) / 10 ^ (2 : ℕ)) := rfl
  rw [h]; norm_num

theorem dtt_credit :
    determine_transaction_type ⟨some (.str "100.00"), some "credit"⟩ =
      .ok "credit" := by
  unfold determine_transaction_type
  rw [show (⟨some (.str "100.00"), some "credit"⟩ : RawTxn).amount?.getD (.num 0) =
    .str "100.00" from rfl, parse_amount_str_100]
  rfl

theorem dtt_debit :
    determine_transaction_type ⟨some (.str "-50.00"), some "debit"⟩ =
      .ok "debit" := by
  unfold determine_transaction_type
  rw [show (⟨some (.str "-50.00"), some "debit"⟩ : RawTxn).amount?.getD (.num 0) =
    .str "-50.00" from rfl, parse_amount_str_neg50]
  rfl

theorem transform_two :
    transform_bank_transactions
      [⟨some (.str "100.00"), some "credit"⟩,
       ⟨some (.str "-50.00"), some "debit"⟩] =
    .ok [⟨100, "credit"⟩, ⟨-50, "debit"⟩] := by
  unfold transform_bank_transactions
  simp [List.mapM, List.mapM.loop, parse_amount_str_100, parse_amount_str_neg50,
    dtt_credit, dtt_debit]
  rfl

/-! ## C1: the reconciliation summary

The connector data below is exactly the repository's own unit-test fixture
(`test_generate_bank_reconciliation_report`): two transactions
`{amount: "100.00", type: "credit"}` and `{amount: "-50.00", type: "debit"}`
and a fetched balance of `2050.00`. -/

def c1TxnCall : ConnCall (List RawTxn) :=
  .returns (some "success") none
    [⟨some (.str "100.00"), some "credit"⟩, ⟨some (.str "-50.00"), some "debit"⟩]

def c1BalCall : ConnCall RawBalance :=
  .returns (some "success") none ⟨some (.str "2050.00"), none⟩

theorem syncOne_c1 : syncOneAccount c1TxnCall =
    ⟨"success", some 2, some [⟨100, "credit"⟩, ⟨-50, "debit"⟩], none⟩ := by
  show (match transform_bank_transactions
      [⟨some (.str "100.00"), some "credit"⟩,
       ⟨some (.str "-50.00"), some "debit"⟩] with
    | Except.error e =>
        ({ status := "error", message? := some e } : AccountResult)
    | Except.ok ts =>
        { status := "success", count? := some ts.length,
          transactions? := some ts }) = _
  rw [transform_two]
  rfl

theorem bankSync_c1 : sync_bank_transactions (fun _ => c1TxnCall) ["12345"] =
    ⟨[("12345",
        ⟨"success", some 2, some [⟨100, "credit"⟩, ⟨-50, "debit"⟩], none⟩)],
      1⟩ := by
  have h : sync_bank_transactions (fun _ => c1TxnCall) ["12345"] =
      { results := [("12345", syncOneAccount c1TxnCall)]
        total_accounts_synced :=
          (List.filter (fun kv => kv.2.status = "success")
            [("12345", syncOneAccount c1TxnCall)]).length } := rfl
  rw [h, syncOne_c1]
  rfl

theorem bal_c1 : syncOneBalance c1BalCall =
    ⟨"success", some 2050, some 0, none⟩ := by
  show (match parse_amount (.str "2050.00"), parse_amount (.num 0) with
    | Except.ok c, Except.ok a =>
        ({ status := "success", current_balance? := some c,
           available_balance? := some a } : BalanceResult)
    | Except.error e, _ => { status := "error", message? := some e }
    | _, Except.error e => { status := "error", message? := some e }) = _
  rw [parse_amount_str_2050]
  rfl

/-- C1: evaluating `generate_bank_reconciliation_report` on the transactions
`[{amount: "100.00", type: credit}, {amount: "-50.00", type: debit}]` with
fetched balance `2050.00` — the code does sum the signed amounts of the
transactions classified by type, so `total_debits` comes out as `-50` (the
signed sum of the debit amounts) and `net_change = 100 - (-50) = 150`,
whereas the claim, and the repository's own unit test, expect
`total_debits = 50` and `net_change = 50`. -/
theorem C1_reconciliation_report_eval :
    generate_bank_reconciliation_report (fun _ => c1TxnCall)
      (fun _ => c1BalCall) "12345" =
    ⟨"success", some ⟨2, -50, 100, 150, 2050⟩, none⟩ ∧
    ((-50 : ℚ) = 50 → False) ∧ ((150 : ℚ) = 50 → False) := by
  refine ⟨?_, by norm_num, by norm_num⟩
  unfold generate_bank_reconciliation_report
  rw [bankSync_c1]
  rw [show syncOneBalance ((fun _ => c1BalCall) "12345") =
    ⟨"success", some 2050, some 0, none⟩ from bal_c1]
  simp [reconSummaryOf, List.filter]
  norm_num

/-- C2: `_parse_amount` on the spec's sample inputs.  Numeric `1234.5` and
an existing decimal `500.25` pass through exactly and `"$1,234.56"` is
normalized to `1234.56 = 30864/25`; but the unparseable string `"invalid"`
raises `decimal.InvalidOperation` (the claim and the repository's own test
`test_parse_amount` expect `Decimal("0")`). -/
theorem C2_parse_amount_eval :
    parse_amount (.num ((2469 : ℚ) / 2)) = .ok ((2469 : ℚ) / 2) ∧
    parse_amount (.str "$1,234.56") = .ok ((30864 : ℚ) / 25) ∧
    parse_amount (.dec ((2001 : ℚ) / 4)) = .ok ((2001 : ℚ) / 4) ∧
    parse_amount (.str "invalid") = .error "InvalidOperation" := by
  refine ⟨rfl, ?_, rfl, rfl⟩
  have h : parse_amount (.str "$1,234.56") =
      .ok (((1234 : ℕ) : ℚ) + ((56 : ℕ) : ℚ) / 10 ^ (2 : ℕ)) := rfl
  rw [h]; norm_num

/-! ## C3: validate_config -/

/-- Spec-side description of `validateConfig`: one error per required field
that is missing from the config or present with a falsy value, in
declaration order. -/
def specConfigErrors (required : List String) (config : Dict ConfigVal) :
    List String :=
  required.filterMap (fun f =>
    match dictGet config f with
    | none => some (missingFieldMsg f)
    | some v => if !v.truthy then some (emptyFieldMsg f) else none)

/-- C3 counterexample: on the empty config map, `validate_config` for the
Kafka connector's four required fields returns the single error
`"Configuration is required"` — not one error per missing required field as
the claim (which explicitly includes the empty map) demands. -/
theorem C3_empty_config_counterexample :
    validate_config kafkaRequiredFields [] = ["Configuration is required"] ∧
    kafkaRequiredFields.length = 4 ∧
    ((validate_config kafkaRequiredFields []).length =
      kafkaRequiredFields.length → False) := by
  refine ⟨rfl, rfl, ?_⟩
  decide

/-- C3 (amended): for every NONEMPTY config map, `validate_config` returns
exactly one error per required field that is missing or has a falsy value —
the full error list equals the spec-side `specConfigErrors` — and the list
is empty exactly when every required field is present with a truthy value.
The embedding is a pure function of the declared fields and the config, so
the connector state is untouched. -/
theorem C3_validate_config_amended (required : List String)
    (config : Dict ConfigVal) (h : config.isEmpty = false) :
    validate_config required config = specConfigErrors required config ∧
    (validate_config required config).isEmpty =
      required.all (fun f =>
        ((dictGet config f).map ConfigVal.truthy).getD false) := by
  have key : ∀ req : List String,
      validate_config_loop config req = specConfigErrors req config := by
    intro req
    induction req with
    | nil => rfl
    | cons f rest ih =>
        cases hf : dictGet config f with
        | none =>
            simp [validate_config_loop, specConfigErrors,
              List.filterMap_cons, hf, ih]
        | some v =>
            by_cases ht : v.truthy <;>
              simp [validate_config_loop, specConfigErrors,
                List.filterMap_cons, hf, ht, ih]
  have h2 : ∀ req : List String,
      (specConfigErrors req config).isEmpty =
        req.all (fun f =>
          ((dictGet config f).map ConfigVal.truthy).getD false) := by
    intro req
    induction req with
    | nil => rfl
    | cons f rest ih =>
        cases hf : dictGet config f with
        | none => simp [specConfigErrors, List.filterMap_cons, hf]
        | some v =>
            by_cases ht : v.truthy
            · simp [specConfigErrors, List.filterMap_cons, hf, ht]
              simpa [specConfigErrors] using ih
            · simp [specConfigErrors, List.filterMap_cons, hf, ht]
  have h1 : validate_config required config = specConfigErrors required config := by
    unfold validate_config
    rw [if_neg (by simp [h]), key]
  exact ⟨h1, by rw [h1]; exact h2 required⟩

/-- C3 witness: a nonempty Kafka config having `host` truthy, `port` falsy
and the other two required fields absent produces exactly the three
corresponding errors. -/
theorem C3_validate_config_amended_witness :
    (([("host", ConfigVal.str "localhost"), ("port", ConfigVal.int 0)] :
        Dict ConfigVal).isEmpty = false) ∧
    (validate_config kafkaRequiredFields
        [("host", ConfigVal.str "localhost"), ("port", ConfigVal.int 0)] =
      specConfigErrors kafkaRequiredFields
        [("host", ConfigVal.str "localhost"), ("port", ConfigVal.int 0)] ∧
      (validate_config kafkaRequiredFields
          [("host", ConfigVal.str "localhost"), ("port", ConfigVal.int 0)]).isEmpty =
        kafkaRequiredFields.all (fun f =>
          ((dictGet [("host", ConfigVal.str "localhost"),
              ("port", ConfigVal.int 0)] f).map ConfigVal.truthy).getD false)) :=
  ⟨rfl, C3_validate_config_amended kafkaRequiredFields
    [("host", ConfigVal.str "localhost"), ("port", ConfigVal.int 0)] rfl⟩

/-! ## C5: payment validation -/

/-- Spec-side description of `_validate_payment_data` for a payment whose
amount parses to `q`: one error per missing required key, one when the
amount is not strictly positive, one when the recipient account (defaulting
to the empty string) is shorter than 5 characters. -/
def specPaymentValidation (p : PaymentData) (q : ℚ) : ValidationResult :=
  let errors :=
    (if p.amount?.isNone then [missingFieldMsg "amount"] else []) ++
    (if p.recipient_account?.isNone then
      [missingFieldMsg "recipient_account"] else []) ++
    (if p.recipient_name?.isNone then [missingFieldMsg "recipient_name"] else []) ++
    (if q ≤ 0 then ["Amount must be greater than zero"] else []) ++
    (if (p.recipient_account?.getD "").length < 5 then
      ["Invalid recipient account number"] else [])
  ⟨errors.isEmpty, errors⟩

theorem payment_errors_nodup (p1 p2 p3 p4 p5 : Prop) [Decidable p1]
    [Decidable p2] [Decidable p3] [Decidable p4] [Decidable p5] :
    ((if p1 then [missingFieldMsg "amount"] else []) ++
     (if p2 then [missingFieldMsg "recipient_account"] else []) ++
     (if p3 then [missingFieldMsg "recipient_name"] else []) ++
     (if p4 then ["Amount must be greater than zero"] else []) ++
     (if p5 then ["Invalid recipient account number"] else [])).Nodup := by
  by_cases h1 : p1 <;> by_cases h2 : p2 <;> by_cases h3 : p3 <;>
    by_cases h4 : p4 <;> by_cases h5 : p5 <;>
    simp only [h1, h2, h3, h4, h5, if_true, if_false, List.append_nil,
      List.nil_append, if_pos, if_neg, not_false_iff] <;>
    decide

/-- C5 counterexample: a payment whose `recipient_name` key is present but
EMPTY, with a positive amount and an 8-character account, passes validation
with zero errors and the connector send IS attempted — the claim requires
validation to fail on an empty recipient name and block the send. -/
theorem C5_empty_recipient_name_counterexample :
    validate_payment_data
      { amount? := some (.num 100), recipient_account? := some "12345678",
        recipient_name? := some "" } = .ok ⟨true, []⟩ ∧
    (initiate_payment "interac"
        (fun _ => .returns { status? := some "success" })
        { amount? := some (.num 100), recipient_account? := some "12345678",
          recipient_name? := some "" }).2 = true := by
  exact ⟨by decide, by decide⟩

/-- C5 (amended): when the amount value parses (to `q`), validation returns
exactly the spec-side error list: it fails precisely when the amount is not
strictly positive, or one of the keys `amount`/`recipient_account`/
`recipient_name` is ABSENT (a present-but-empty recipient name is accepted),
or the recipient account string (defaulting to empty) is shorter than 5
characters; the errors are distinct, and a failed validation blocks the
connector send and yields the structured error result. -/
theorem C5_payment_validation_amended (p : PaymentData) (q : ℚ) (gw : String)
    (send : BankPaymentData → SendCall)
    (hq : parse_amount (p.amount?.getD (.num 0)) = .ok q) :
    validate_payment_data p = .ok (specPaymentValidation p q) ∧
    (specPaymentValidation p q).errors.Nodup ∧
    ((specPaymentValidation p q).valid = true ↔
      (p.amount?.isSome = true ∧ p.recipient_name?.isSome = true ∧ 0 < q ∧
        5 ≤ (p.recipient_account?.getD "").length)) ∧
    ((specPaymentValidation p q).valid = false →
      (initiate_payment gw send p).2 = false ∧
      (initiate_payment gw send p).1.status = "error" ∧
      (initiate_payment gw send p).1.errors? =
        some (specPaymentValidation p q).errors) := by
  have hval : validate_payment_data p = .ok (specPaymentValidation p q) := by
    unfold validate_payment_data specPaymentValidation
    rw [hq]
  refine ⟨hval, payment_errors_nodup _ _ _ _ _, ?_, ?_⟩
  · cases ha : p.amount? <;> cases hacc : p.recipient_account? <;>
      cases hn : p.recipient_name? <;>
      by_cases h4 : q ≤ 0 <;>
      simp_all [specPaymentValidation, not_le, not_lt]
  · intro hv
    have hcode : initiate_payment gw send p =
        ({ status := "error", message? := some "Payment validation failed",
           errors? := some (specPaymentValidation p q).errors }, false) := by
      unfold initiate_payment
      rw [hval]
      simp [hv]
    rw [hcode]
    exact ⟨rfl, rfl, rfl⟩

/-- C5 witness: the spec's own failing sample — a negative amount, a present
recipient name and no account — yields the three distinct errors, an invalid
result, and no connector send. -/
theorem C5_payment_validation_amended_witness :
    parse_amount (((some (AmountVal.num (-100)) : Option AmountVal)).getD
      (.num 0)) = .ok (-100 : ℚ) ∧
    validate_payment_data
      { amount? := some (.num (-100)), recipient_name? := some "X" } =
      .ok (specPaymentValidation
        { amount? := some (.num (-100)), recipient_name? := some "X" } (-100)) ∧
    (specPaymentValidation
      { amount? := some (.num (-100)), recipient_name? := some "X" }
      (-100)).errors =
      [missingFieldMsg "recipient_account",
       "Amount must be greater than zero",
       "Invalid recipient account number"] ∧
    (specPaymentValidation
      { amount? := some (.num (-100)), recipient_name? := some "X" }
      (-100)).valid = false ∧
    (initiate_payment "interac" (fun _ => .returns { status? := some "success" })
      { amount? := some (.num (-100)), recipient_name? := some "X" }).2 = false := by
  have h := C5_payment_validation_amended
    { amount? := some (.num (-100)), recipient_name? := some "X" } (-100)
    "interac" (fun _ => .returns { status? := some "success" }) rfl
  refine ⟨rfl, h.1, by decide, by decide, ?_⟩
  exact (h.2.2.2 (by decide)).1

/-! ## C6: transaction type determination -/

/-- C6: whenever the transaction's amount (defaulting to `0`) parses to `q`,
the type determination returns the lower-cased explicit `type` field when
one is present — regardless of the sign of `q` — and otherwise classifies
by sign: `credit` for `q > 0`, `debit` for `q ≤ 0` (zero is a debit). -/
theorem C6_determine_transaction_type (t : RawTxn) (q : ℚ)
    (hq : parse_amount (t.amount?.getD (.num 0)) = .ok q) :
    determine_transaction_type t = .ok (match t.type? with
      | some s => pyLower s
      | none => if q > 0 then "credit" else "debit") := by
  unfold determine_transaction_type
  rw [hq]
  cases htt : t.type? <;> simp [htt]

/-- C6 witness: an explicit upper-case `CREDIT` tag on a positive amount is
lower-cased; a `-50.00` amount without a tag is classified `debit`; a zero
amount without a tag is classified `debit`. -/
theorem C6_determine_transaction_type_witness :
    parse_amount ((some (AmountVal.str "100.00")).getD (.num 0)) =
      .ok (100 : ℚ) ∧
    determine_transaction_type ⟨some (.str "100.00"), some "CREDIT"⟩ =
      .ok "credit" ∧
    determine_transaction_type ⟨some (.str "-50.00"), none⟩ = .ok "debit" ∧
    determine_transaction_type ⟨some (.num 0), none⟩ = .ok "debit" := by
  refine ⟨parse_amount_str_100, ?_, ?_, ?_⟩
  · have h := C6_determine_transaction_type ⟨some (.str "100.00"), some "CREDIT"⟩
      100 parse_amount_str_100
    simpa using h
  · have h := C6_determine_transaction_type ⟨some (.str "-50.00"), none⟩
      (-50) parse_amount_str_neg50
    rw [h]
    norm_num
  · have h := C6_determine_transaction_type ⟨some (.num 0), none⟩ 0 rfl
    simpa using h

/-! ## C7: batch sync result maps -/

theorem foldl_dictInsert_nodup {α : Type} (f : String → α) :
    ∀ (l : List String) (acc : Dict α), l.Nodup →
      (∀ a ∈ l, dictHasKey acc a = false) →
      l.foldl (fun m a => dictInsert m a (f a)) acc =
        acc ++ l.map (fun a => (a, f a)) := by
  intro l
  induction l with
  | nil => intro acc _ _; simp
  | cons a rest ih =>
      intro acc hnd hacc
      have hstep : dictInsert acc a (f a) = acc ++ [(a, f a)] :=
        dictInsert_of_not_mem acc a (f a) (hacc a (by simp))
      have hrest : ∀ b ∈ rest, dictHasKey (acc ++ [(a, f a)]) b = false := by
        intro b hb
        rw [dictHasKey_append]
        have h1 : dictHasKey acc b = false := hacc b (by simp [hb])
        have h2 : dictHasKey [(a, f a)] b = false := by
          have : a ≠ b := by
            rintro rfl
            exact (List.nodup_cons.mp hnd).1 hb
          simp [dictHasKey, this]
        simp [h1, h2]
      calc (a :: rest).foldl (fun m a => dictInsert m a (f a)) acc
          = rest.foldl (fun m a => dictInsert m a (f a)) (acc ++ [(a, f a)]) := by
            rw [List.foldl_cons, hstep]
        _ = acc ++ [(a, f a)] ++ rest.map (fun a => (a, f a)) :=
            ih (acc ++ [(a, f a)]) (List.nodup_cons.mp hnd).2 hrest
        _ = acc ++ (a :: rest).map (fun a => (a, f a)) := by simp

/-- C7 counterexample: a duplicated account number — the accounts list
`["12345", "12345"]` has N = 2 entries, but the results dict has a single
key (the second loop iteration overwrites the first), so the batch result
does not have "exactly N keys". -/
theorem C7_duplicate_accounts_counterexample :
    (sync_bank_transactions
      (fun _ => .returns (some "success") none []) ["12345", "12345"]).results.length = 1 ∧
    (sync_bank_transactions
      (fun _ => .returns (some "success") none []) ["12345", "12345"]).total_accounts_synced = 1 ∧
    (["12345", "12345"] : List String).length = 2 := by
  exact ⟨by decide, by decide, rfl⟩

/-- C7 (amended): for every DUPLICATE-FREE list of N account numbers
(respectively financial data types), the batch sync returns one results
entry per account/data type, in order — so exactly N keys — and the
reported total equals the number M of entries whose status is `success`,
whatever the remaining N − M outcomes are. -/
theorem C7_batch_sync_amended
    (envB : String → ConnCall (List RawTxn)) (accounts : List String)
    (hB : accounts.Nodup) (erp_type : String)
    (envE : String → ConnCall (List (Dict AmountVal)))
    (data_types : List String) (hE : data_types.Nodup) :
    (sync_bank_transactions envB accounts).results =
      accounts.map (fun a => (a, syncOneAccount (envB a))) ∧
    (sync_bank_transactions envB accounts).results.length = accounts.length ∧
    (sync_bank_transactions envB accounts).total_accounts_synced =
      (accounts.filter
        (fun a => (syncOneAccount (envB a)).status = "success")).length ∧
    (sync_financial_data erp_type envE data_types).results =
      data_types.map (fun dt => (dt, syncOneDataType erp_type (envE dt) dt)) ∧
    (sync_financial_data erp_type envE data_types).results.length =
      data_types.length ∧
    (sync_financial_data erp_type envE data_types).total_synced =
      (data_types.filter
        (fun dt => (syncOneDataType erp_type (envE dt) dt).status =
          "success")).length := by
  have hBres : (sync_bank_transactions envB accounts).results =
      accounts.map (fun a => (a, syncOneAccount (envB a))) := by
    show accounts.foldl
      (fun m a => dictInsert m a (syncOneAccount (envB a))) [] = _
    simpa using foldl_dictInsert_nodup (fun a => syncOneAccount (envB a))
      accounts [] hB (by intro a _; rfl)
  have hEres : (sync_financial_data erp_type envE data_types).results =
      data_types.map (fun dt => (dt, syncOneDataType erp_type (envE dt) dt)) := by
    show data_types.foldl
      (fun m dt => dictInsert m dt (syncOneDataType erp_type (envE dt) dt)) [] = _
    simpa using foldl_dictInsert_nodup
      (fun dt => syncOneDataType erp_type (envE dt) dt)
      data_types [] hE (by intro a _; rfl)
  refine ⟨hBres, by rw [hBres, List.length_map], ?_, hEres,
    by rw [hEres, List.length_map], ?_⟩
  · show (List.filter (fun kv => kv.2.status = "success")
      (sync_bank_transactions envB accounts).results).length = _
    rw [hBres, List.filter_map, List.length_map]
    rfl
  · show (List.filter (fun kv => kv.2.status = "success")
      (sync_financial_data erp_type envE data_types).results).length = _
    rw [hEres, List.filter_map, List.length_map]
    rfl

/-- C7 witness: two distinct accounts, the first succeeding and the second
failing, give two result keys and a total of one; likewise two ERP data
types under the generic (passthrough) vendor. -/
theorem C7_batch_sync_amended_witness :
    (["A", "B"] : List String).Nodup ∧
    (sync_bank_transactions
      (fun a => if a = "A" then .returns (some "success") none []
        else .returns (some "error") (some "boom") []) ["A", "B"]).results.length = 2 ∧
    (sync_bank_transactions
      (fun a => if a = "A" then .returns (some "success") none []
        else .returns (some "error") (some "boom") []) ["A", "B"]).total_accounts_synced = 1 ∧
    (sync_financial_data "generic"
      (fun dt => if dt = "projects" then .returns (some "success") none []
        else .raises "ConnectionError")
      ["projects", "cost_centers"]).results.length = 2 ∧
    (sync_financial_data "generic"
      (fun dt => if dt = "projects" then .returns (some "success") none []
        else .raises "ConnectionError")
      ["projects", "cost_centers"]).total_synced = 1 := by
  have h := C7_batch_sync_amended
    (fun a => if a = "A" then .returns (some "success") none []
      else .returns (some "error") (some "boom") []) ["A", "B"] (by decide)
    "generic"
    (fun dt => if dt = "projects" then .returns (some "success") none []
      else .raises "ConnectionError") ["projects", "cost_centers"] (by decide)
  refine ⟨by decide, ?_, ?_, ?_, ?_⟩
  · rw [h.2.1]; rfl
  · rw [h.2.2.1]; decide
  · rw [h.2.2.2.2.1]; rfl
  · rw [h.2.2.2.2.2]; decide

/-! ## C4: failure isolation and operation logs -/

theorem opErrorLogCount_append (l1 l2 : List LogEntry) (op : String) :
    opErrorLogCount (l1 ++ l2) op =
      opErrorLogCount l1 op + opErrorLogCount l2 op := by
  simp [opErrorLogCount, List.filter_append]

theorem opErrorLogCount_sync_err (d : String) :
    opErrorLogCount [⟨"sync_data", "error", d⟩] "sync_data" = 1 := rfl

theorem opErrorLogCount_sync_ok (d : String) :
    opErrorLogCount [⟨"sync_data", "success", d⟩] "sync_data" = 0 := rfl

theorem opErrorLogCount_send_err (d : String) :
    opErrorLogCount [⟨"send_data", "error", d⟩] "send_data" = 1 := rfl

theorem opErrorLogCount_send_ok (d : String) :
    opErrorLogCount [⟨"send_data", "success", d⟩] "send_data" = 0 := rfl

theorem kafka_sync_spec (env : KafkaEnv) (st : KafkaState) (dt : String)
    (fl : Option (Dict FilterVal)) :
    ((kafka_sync_data env st dt fl).1.status = "success" ∨
      ((kafka_sync_data env st dt fl).1.status = "error" ∧
        (kafka_sync_data env st dt fl).1.message?.isSome = true)) ∧
    opErrorLogCount (kafka_sync_data env st dt fl).2.2 "sync_data" =
      (if (kafka_sync_data env st dt fl).1.status = "error" then 1 else 0) ∧
    errorLogCount (kafka_sync_data env st dt fl).2.2 ≤ 2 := by
  unfold kafka_sync_data kafka_connect
  cases hc : st.is_connected <;> cases hco : env.connectOut <;>
    cases hcons : st.hasConsumer <;> cases hpoll : env.poll <;>
    simp_all [opErrorLogCount, errorLogCount, List.filter]

theorem kafka_send_spec (env : KafkaEnv) (st : KafkaState) :
    ((kafka_send_data env st).1.status = "success" ∨
      (kafka_send_data env st).1.status = "error") ∧
    opErrorLogCount (kafka_send_data env st).2.2 "send_data" =
      (if (kafka_send_data env st).1.status = "error" then 1 else 0) ∧
    errorLogCount (kafka_send_data env st).2.2 ≤ 2 := by
  unfold kafka_send_data kafka_connect
  cases hc : st.is_connected <;> cases hco : env.connectOut <;>
    cases hcons : st.hasProducer <;> cases hsend : env.sendAck <;>
    simp_all [opErrorLogCount, errorLogCount, List.filter]

theorem custom_connect_ops (cfg : CustomConfig) (load : LoadOutcome)
    (st : CustomState) :
    ∀ e ∈ (custom_connect cfg load st).2.2, e.operation = "connect" := by
  intro e he
  unfold custom_connect at he
  split at he
  · simp_all
  · cases load with
    | raisesL m => simp_all
    | notAClass => simp_all
    | loaded p =>
        cases hin : p.hasInitialize
        · simp_all
        · cases hio : p.initializeOutcome
          · simp_all
          · rename_i b
            cases b <;> simp_all

theorem custom_sync_body_spec (now : Nat) (st1 : CustomState)
    (logs1 : List LogEntry) (hlogs : ∀ e ∈ logs1, e.operation = "connect") :
    ((custom_sync_body now st1 logs1).1.status = "success" ∨
      ((custom_sync_body now st1 logs1).1.status = "error" ∧
        (custom_sync_body now st1 logs1).1.message?.isSome = true)) ∧
    opErrorLogCount (custom_sync_body now st1 logs1).2.2 "sync_data" ≤ 1 := by
  have hz : opErrorLogCount logs1 "sync_data" = 0 := by
    unfold opErrorLogCount
    rw [List.length_eq_zero, List.filter_eq_nil_iff]
    intro e he
    simp [hlogs e he]
  unfold custom_sync_body
  cases hp : st1.plugin with
  | none => simp [hp, hz]
  | some p =>
      cases hsd : p.hasSyncData <;> cases hso : p.syncOutcome <;>
        simp [hp, hsd, hso, opErrorLogCount_append, hz,
          opErrorLogCount_sync_err, opErrorLogCount_sync_ok]

theorem custom_send_body_spec (st1 : CustomState) (logs1 : List LogEntry)
    (hlogs : ∀ e ∈ logs1, e.operation = "connect") :
    ((custom_send_body st1 logs1).1.status = "success" ∨
      (custom_send_body st1 logs1).1.status = "error") ∧
    opErrorLogCount (custom_send_body st1 logs1).2.2 "send_data" ≤ 1 := by
  have hz : opErrorLogCount logs1 "send_data" = 0 := by
    unfold opErrorLogCount
    rw [List.length_eq_zero, List.filter_eq_nil_iff]
    intro e he
    simp [hlogs e he]
  unfold custom_send_body
  cases hp : st1.plugin with
  | none => simp [hp, hz]
  | some p =>
      cases hsd : p.hasSendData <;> cases hso : p.sendOutcome <;>
        simp [hp, hsd, hso, opErrorLogCount_append, hz,
          opErrorLogCount_send_err, opErrorLogCount_send_ok]

/-- C4 counterexample: a disconnected Kafka connector whose implicit connect
fails (the client constructor raises) and whose consumer is therefore still
`None`.  The single public `sync_data` call returns a structured error dict
(no exception escapes) but writes TWO operation-log entries with status
`error` — one from the failed implicit `connect` and one from `sync_data`
itself — not "exactly one". -/
theorem C4_two_error_logs_counterexample :
    (kafka_sync_data
      ⟨.failProducer "ImportError", .ok [], .ok ("t", 0, 0), .ok (), .ok (), 0⟩
      {} "transactions" none).1.status = "error" ∧
    errorLogCount (kafka_sync_data
      ⟨.failProducer "ImportError", .ok [], .ok ("t", 0, 0), .ok (), .ok (), 0⟩
      {} "transactions" none).2.2 = 2 ∧
    (errorLogCount (kafka_sync_data
      ⟨.failProducer "ImportError", .ok [], .ok ("t", 0, 0), .ok (), .ok (), 0⟩
      {} "transactions" none).2.2 = 1 → False) := by
  exact ⟨by decide, by decide, by decide⟩

/-- C4 (amended): no exception ever escapes the modeled public operations —
each is a total function returning a dict whose status is `success` or
`error`, with a message on error.  The failing operation itself writes
exactly one log entry of its own operation name with status `error` (zero
on success) for the Kafka connector, but a failed implicit connect inside
sync/send contributes its own additional `connect` error entry (so up to two
error entries in total), and the CustomConnector's missing-method error
result is returned without writing any log entry (so at most one `sync_data`
/`send_data` error entry there); `initiate_payment` maps every internal
failure to a status-`error` dict with a message and writes no module-level
log entry of its own. -/
theorem C4_error_isolation_amended (env : KafkaEnv) (st : KafkaState)
    (dt : String) (fl : Option (Dict FilterVal)) (cfg : CustomConfig)
    (load : LoadOutcome) (now : Nat) (cst : CustomState) (gw : String)
    (send : BankPaymentData → SendCall) (p : PaymentData) :
    ((kafka_sync_data env st dt fl).1.status = "success" ∨
      ((kafka_sync_data env st dt fl).1.status = "error" ∧
        (kafka_sync_data env st dt fl).1.message?.isSome = true)) ∧
    opErrorLogCount (kafka_sync_data env st dt fl).2.2 "sync_data" =
      (if (kafka_sync_data env st dt fl).1.status = "error" then 1 else 0) ∧
    errorLogCount (kafka_sync_data env st dt fl).2.2 ≤ 2 ∧
    ((kafka_send_data env st).1.status = "success" ∨
      (kafka_send_data env st).1.status = "error") ∧
    opErrorLogCount (kafka_send_data env st).2.2 "send_data" =
      (if (kafka_send_data env st).1.status = "error" then 1 else 0) ∧
    ((custom_sync_data cfg load now cst).1.status = "success" ∨
      ((custom_sync_data cfg load now cst).1.status = "error" ∧
        (custom_sync_data cfg load now cst).1.message?.isSome = true)) ∧
    opErrorLogCount (custom_sync_data cfg load now cst).2.2 "sync_data" ≤ 1 ∧
    ((custom_send_data cfg load cst).1.status = "success" ∨
      (custom_send_data cfg load cst).1.status = "error") ∧
    opErrorLogCount (custom_send_data cfg load cst).2.2 "send_data" ≤ 1 ∧
    ((initiate_payment gw send p).1.status = "success" ∨
      ((initiate_payment gw send p).1.status = "error" ∧
        (initiate_payment gw send p).1.message?.isSome = true)) := by
  have hks := kafka_sync_spec env st dt fl
  have hksd := kafka_send_spec env st
  have hcl : ∀ e ∈ (if !cst.is_connected || cst.plugin.isNone then
      custom_connect cfg load cst else (true, cst, [])).2.2,
      e.operation = "connect" := by
    split
    · exact custom_connect_ops cfg load cst
    · intro e he; simp at he
  have hcs := custom_sync_body_spec now
    (if !cst.is_connected || cst.plugin.isNone then
      custom_connect cfg load cst else (true, cst, [])).2.1
    (if !cst.is_connected || cst.plugin.isNone then
      custom_connect cfg load cst else (true, cst, [])).2.2 hcl
  have hcsd := custom_send_body_spec
    (if !cst.is_connected || cst.plugin.isNone then
      custom_connect cfg load cst else (true, cst, [])).2.1
    (if !cst.is_connected || cst.plugin.isNone then
      custom_connect cfg load cst else (true, cst, [])).2.2 hcl
  have hip : (initiate_payment gw send p).1.status = "success" ∨
      ((initiate_payment gw send p).1.status = "error" ∧
        (initiate_payment gw send p).1.message?.isSome = true) := by
    unfold initiate_payment
    cases hv : validate_payment_data p with
    | error e => simp
    | ok v =>
        by_cases hvv : v.valid
        · cases hs : send (transform_payment_to_bank_format gw p) with
          | raises m => simp [hvv]
          | returns r =>
              by_cases hrs : r.status? = some "success" <;> simp [hvv, hrs]
        · simp [hvv]
  exact ⟨hks.1, hks.2.1, hks.2.2, hksd.1, hksd.2.1, hcs.1, hcs.2,
    hcsd.1, hcsd.2, hip⟩

/-! ## C8: connect then disconnect -/

/-- C8: for any transport environments whose `close` calls succeed, a Kafka
`connect` (successful or not) followed by `disconnect` leaves
`is_connected = false`, and a second `disconnect` immediately afterwards
also returns `True` — both calls are total functions of the model, so no
error escapes.  The CRM connector satisfies the same property with no
assumption at all (its `disconnect` body cannot raise). -/
theorem C8_connect_then_disconnect (env1 env2 env3 : KafkaEnv)
    (st : KafkaState) (cst : CRMState)
    (h2p : env2.closeProducer = .ok ()) (h2c : env2.closeConsumer = .ok ())
    (h3p : env3.closeProducer = .ok ()) (h3c : env3.closeConsumer = .ok ()) :
    (kafka_disconnect env2 (kafka_connect env1 st).2.1).2.1.is_connected
      = false ∧
    (kafka_disconnect env2 (kafka_connect env1 st).2.1).1 = true ∧
    (kafka_disconnect env3
      (kafka_disconnect env2 (kafka_connect env1 st).2.1).2.1).1 = true ∧
    (crm_disconnect (crm_connect cst).2.1).2.1.is_connected = false ∧
    (crm_disconnect (crm_disconnect (crm_connect cst).2.1).2.1).1 = true := by
  have hd2 : ∀ s : KafkaState, (kafka_disconnect env2 s).1 = true ∧
      (kafka_disconnect env2 s).2.1.is_connected = false := by
    intro s
    unfold kafka_disconnect
    rw [show (if s.hasProducer then env2.closeProducer else .ok ()) = .ok ()
      from by cases s.hasProducer <;> simp [h2p]]
    rw [show (if s.hasConsumer then env2.closeConsumer else .ok ()) = .ok ()
      from by cases s.hasConsumer <;> simp [h2c]]
    exact ⟨rfl, rfl⟩
  have hd3 : ∀ s : KafkaState, (kafka_disconnect env3 s).1 = true := by
    intro s
    unfold kafka_disconnect
    rw [show (if s.hasProducer then env3.closeProducer else .ok ()) = .ok ()
      from by cases s.hasProducer <;> simp [h3p]]
    rw [show (if s.hasConsumer then env3.closeConsumer else .ok ()) = .ok ()
      from by cases s.hasConsumer <;> simp [h3c]]
  exact ⟨(hd2 _).2, (hd2 _).1, hd3 _, rfl, rfl⟩

/-- C8 witness: a well-behaved environment and the fresh connector states. -/
theorem C8_connect_then_disconnect_witness :
    ((⟨.ok, .ok [], .ok ("t", 0, 0), .ok (), .ok (), 0⟩ :
      KafkaEnv).closeProducer = .ok ()) ∧
    (kafka_disconnect ⟨.ok, .ok [], .ok ("t", 0, 0), .ok (), .ok (), 0⟩
      (kafka_connect ⟨.ok, .ok [], .ok ("t", 0, 0), .ok (), .ok (), 0⟩
        {}).2.1).2.1.is_connected = false ∧
    (kafka_disconnect ⟨.ok, .ok [], .ok ("t", 0, 0), .ok (), .ok (), 0⟩
      (kafka_disconnect ⟨.ok, .ok [], .ok ("t", 0, 0), .ok (), .ok (), 0⟩
        (kafka_connect ⟨.ok, .ok [], .ok ("t", 0, 0), .ok (), .ok (), 0⟩
          {}).2.1).2.1).1 = true ∧
    (crm_disconnect (crm_connect {}).2.1).2.1.is_connected = false := by
  have h := C8_connect_then_disconnect
    ⟨.ok, .ok [], .ok ("t", 0, 0), .ok (), .ok (), 0⟩
    ⟨.ok, .ok [], .ok ("t", 0, 0), .ok (), .ok (), 0⟩
    ⟨.ok, .ok [], .ok ("t", 0, 0), .ok (), .ok (), 0⟩
    {} {} rfl rfl rfl rfl
  exact ⟨rfl, h.1, h.2.2.1, h.2.2.2.1⟩

/-! ## C9: plugin capability probing -/

/-- C9: when the connector is connected and its loaded plugin instance lacks
`sync_data` (respectively `send_data`), the public call returns the
structured error dict with the exact message
"Plugin does not implement sync_data method" (resp. `send_data`), leaves the
state untouched, writes no log entry, and — being a total function of the
model — raises nothing. -/
theorem C9_plugin_missing_methods (cfg : CustomConfig) (load : LoadOutcome)
    (now : Nat) (st : CustomState) (p : Plugin)
    (hp : st.plugin = some p) (hc : st.is_connected = true)
    (hsync : p.hasSyncData = false) (hsend : p.hasSendData = false) :
    custom_sync_data cfg load now st =
      ({ status := "error",
         message? := some "Plugin does not implement sync_data method" },
        st, []) ∧
    custom_send_data cfg load st =
      ({ status := "error",
         message := "Plugin does not implement send_data method" }, st, []) := by
  constructor
  · unfold custom_sync_data custom_sync_body
    simp [hc, hp, hsync]
  · unfold custom_send_data custom_send_body
    simp [hc, hp, hsend]

/-- C9 witness: a connected connector holding a plugin with no capability
methods at all. -/
theorem C9_plugin_missing_methods_witness :
    (({ is_connected := true, plugin := some {} } : CustomState).plugin =
      some {}) ∧
    custom_sync_data {} (.loaded {}) 0
      { is_connected := true, plugin := some {} } =
      ({ status := "error",
         message? := some "Plugin does not implement sync_data method" },
        { is_connected := true, plugin := some {} }, []) ∧
    custom_send_data {} (.loaded {})
      { is_connected := true, plugin := some {} } =
      ({ status := "error",
         message := "Plugin does not implement send_data method" },
        { is_connected := true, plugin := some {} }, []) := by
  have h := C9_plugin_missing_methods {} (.loaded {}) 0
    { is_connected := true, plugin := some {} } {} rfl rfl rfl rfl
  exact ⟨rfl, h.1, h.2⟩

/-! ## C10: filter injection operates on a copy -/

theorem set_append_singleton {α : Type} (l : List α) (a b : α) :
    (l ++ [a]).set l.length b = l ++ [b] := by
  induction l with
  | nil => rfl
  | cons x xs ih => simp [List.set, ih]

theorem getD_append_left {α : Type} (l : List α) (v d : α) (r : Nat)
    (hr : r < l.length) : (l ++ [v]).getD r d = l.getD r d := by
  unfold List.getD
  rw [List.get?_eq_getElem?, List.get?_eq_getElem?, List.getElem?_append,
    if_pos hr]

theorem getD_append_self {α : Type} (l : List α) (v d : α) :
    (l ++ [v]).getD l.length d = v := by
  induction l with
  | nil => rfl
  | cons x xs ih => simp only [List.cons_append, List.length_cons]; exact ih

theorem heap_alloc_set_get (h : Heap) (d u : Dict FilterVal) (r : Nat)
    (hr : r < h.cells.length) :
    (((h.alloc d).1.set (h.alloc d).2 u).get r = h.get r) ∧
    (((h.alloc d).1.set (h.alloc d).2 u).get (h.alloc d).2 = u) := by
  unfold Heap.alloc Heap.set Heap.get
  constructor
  · rw [set_append_singleton]
    exact getD_append_left _ _ _ _ hr
  · rw [set_append_singleton]
    exact getD_append_self _ _ _

/-- C10: both filter-injection helpers copy the caller's dict into a fresh
cell and merge the vendor-specific keys only into the copy: after the call,
the caller's cell holds exactly its old entries, the returned reference is
a fresh one (distinct from the caller's), and the fresh cell holds the old
entries updated with the vendor table.  Passing `None` as the ERP filters
allocates a fresh dict without touching the heap's existing cells. -/
theorem C10_filters_not_mutated (bank_type : String) (h : Heap) (r : Nat)
    (hr : r < h.cells.length) (erp_type : String) (cfg : ErpConfig)
    (g : Heap) (r2 : Nat) (hr2 : r2 < g.cells.length) :
    ((apply_bank_specific_filters bank_type h r).1.get r = h.get r) ∧
    ((apply_bank_specific_filters bank_type h r).2 = r → False) ∧
    ((apply_bank_specific_filters bank_type h r).1.get
        (apply_bank_specific_filters bank_type h r).2 =
      (if pyLower bank_type = "rbc" then dictUpdate (h.get r) rbcFilters
       else if pyLower bank_type = "td" then dictUpdate (h.get r) tdFilters
       else if pyLower bank_type = "bmo" then dictUpdate (h.get r) bmoFilters
       else if pyLower bank_type = "scotiabank" then
         dictUpdate (h.get r) scotiabankFilters
       else h.get r)) ∧
    ((apply_erp_specific_filters erp_type cfg g (some r2)).1.get r2 =
      g.get r2) ∧
    ((apply_erp_specific_filters erp_type cfg g (some r2)).2 = r2 → False) ∧
    ((apply_erp_specific_filters erp_type cfg g (some r2)).1.get
        (apply_erp_specific_filters erp_type cfg g (some r2)).2 =
      (if pyLower erp_type = "sap" then
        dictUpdate (g.get r2) (sap_filters cfg)
       else if pyLower erp_type = "postgresql_erp" then
        dictUpdate (g.get r2) (postgresql_erp_filters cfg)
       else if pyLower erp_type = "dynamics" then
        dictUpdate (g.get r2) (dynamics_filters cfg)
       else g.get r2)) ∧
    ((apply_erp_specific_filters erp_type cfg g none).1.get r2 = g.get r2) := by
  have hb := heap_alloc_set_get h (h.get r)
    (if pyLower bank_type = "rbc" then dictUpdate (h.get r) rbcFilters
     else if pyLower bank_type = "td" then dictUpdate (h.get r) tdFilters
     else if pyLower bank_type = "bmo" then dictUpdate (h.get r) bmoFilters
     else if pyLower bank_type = "scotiabank" then
       dictUpdate (h.get r) scotiabankFilters
     else h.get r) r hr
  have he := heap_alloc_set_get g (g.get r2)
    (if pyLower erp_type = "sap" then dictUpdate (g.get r2) (sap_filters cfg)
     else if pyLower erp_type = "postgresql_erp" then
      dictUpdate (g.get r2) (postgresql_erp_filters cfg)
     else if pyLower erp_type = "dynamics" then
      dictUpdate (g.get r2) (dynamics_filters cfg)
     else g.get r2) r2 hr2
  have hn := heap_alloc_set_get g ([] : Dict FilterVal)
    (if pyLower erp_type = "sap" then dictUpdate [] (sap_filters cfg)
     else if pyLower erp_type = "postgresql_erp" then
      dictUpdate [] (postgresql_erp_filters cfg)
     else if pyLower erp_type = "dynamics" then
      dictUpdate [] (dynamics_filters cfg)
     else []) r2 hr2
  refine ⟨hb.1, ?_, hb.2, he.1, ?_, he.2, hn.1⟩
  · intro hcontra
    have heq : (apply_bank_specific_filters bank_type h r).2 =
      h.cells.length := rfl
    rw [heq] at hcontra
    omega
  · intro hcontra
    have heq : (apply_erp_specific_filters erp_type cfg g (some r2)).2 =
      g.cells.length := rfl
    rw [heq] at hcontra
    omega

/-- C10 witness: a one-cell heap holding the dict `{account_number: "12345"}`
for an RBC banking module and a SAP ERP module. -/
theorem C10_filters_not_mutated_witness :
    ((⟨[[("account_number", FilterVal.str "12345")]]⟩ : Heap).cells.length = 1) ∧
    ((apply_bank_specific_filters "rbc"
        ⟨[[("account_number", FilterVal.str "12345")]]⟩ 0).1.get 0 =
      [("account_number", FilterVal.str "12345")]) ∧
    ((apply_bank_specific_filters "rbc"
        ⟨[[("account_number", FilterVal.str "12345")]]⟩ 0).1.get
      (apply_bank_specific_filters "rbc"
        ⟨[[("account_number", FilterVal.str "12345")]]⟩ 0).2 =
      [("account_number", FilterVal.str "12345"),
       ("institution_id", FilterVal.str "003"), ("format", FilterVal.str "json"),
       ("include_pending", FilterVal.bool true)]) ∧
    ((apply_erp_specific_filters "sap" {}
        ⟨[[("account_number", FilterVal.str "12345")]]⟩ (some 0)).1.get 0 =
      [("account_number", FilterVal.str "12345")]) := by
  have h := C10_filters_not_mutated "rbc"
    ⟨[[("account_number", FilterVal.str "12345")]]⟩ 0 (by decide)
    "sap" {} ⟨[[("account_number", FilterVal.str "12345")]]⟩ 0 (by decide)
  refine ⟨rfl, ?_, ?_, ?_⟩
  · rw [h.1]; rfl
  · rw [h.2.2.1]; rfl
  · rw [h.2.2.2.1]; rfl

end CH
